import Mathlib

/-!
Verification of the appvector-mcp tool-dispatch gateway.

This file gives a shallow embedding of the TypeScript sources:
  - src/index.ts                     (tool registry and the CallToolRequestSchema dispatcher)
  - src/handlers/base.ts             (BaseHandler: date defaulting, query construction, fetchApi, fetchApiPost)
  - src/handlers/*.ts                (the per-tool handlers)
Machine-level concerns (the HTTP transport, JSON parsing and pretty printing,
the wall clock) are abstracted: the clock is an explicit CivilDate argument,
and the outbound fetch is an explicit function argument from the built request
to an outcome.  Everything up to the outbound call (validation, defaulting,
query construction, header construction, URL construction) is embedded
faithfully, statement by statement, from the source.
-/

namespace AppVector

/-- Process-wide configuration: upstream base URL and API token
(src/index.ts lines 28-29; the token may be the empty string). -/
structure Config where
  apiUrl : String
  apiToken : String
deriving DecidableEq

/-- A calendar date.  Embeds the JS Date value used by the handlers, at
day granularity; month is 1-12 as produced by getMonth()+1 in formatDate. -/
structure CivilDate where
  year : Nat
  month : Nat
  day : Nat
deriving DecidableEq

/-- Day count of a civil date, counted from 0000-03-01 of the proleptic
Gregorian calendar (standard civil-from-days arithmetic).  Used to embed the
normalizing day arithmetic of JS Date.setDate. -/
def daysFromCivil (dt : CivilDate) : Nat :=
  let y := if dt.month ≤ 2 then dt.year - 1 else dt.year
  let era := y / 400
  let yoe := y % 400
  let mp := (dt.month + 9) % 12
  let doy := (153 * mp + 2) / 5 + dt.day - 1
  let doe := yoe * 365 + yoe / 4 - yoe / 100 + doy
  era * 146097 + doe

/-- Inverse of daysFromCivil on valid day counts: the civil date of a day
number counted from 0000-03-01. -/
def civilFromDays (z : Nat) : CivilDate :=
  let era := z / 146097
  let doe := z % 146097
  let yoe := (doe - doe / 1460 + doe / 36524 - doe / 146096) / 365
  let doy := doe - (365 * yoe + yoe / 4 - yoe / 100)
  let mp := (5 * doy + 2) / 153
  let d := doy - (153 * mp + 2) / 5 + 1
  let m := if mp < 10 then mp + 3 else mp - 9
  { year := (yoe + era * 400) + (if m ≤ 2 then 1 else 0), month := m, day := d }

/-- JS Date.prototype.setDate semantics: replace the day-of-month by newDay,
normalizing out-of-range values (0 and negative roll into earlier months,
values past the month length roll forward), as base.ts line 51 does with
thirtyDaysAgo.setDate(thirtyDaysAgo.getDate() - 30). -/
def setDate (dt : CivilDate) (newDay : Int) : CivilDate :=
  civilFromDays ((daysFromCivil { dt with day := 1 } : Int) + newDay - 1).toNat

/-- String.padStart(2, "0") applied to the decimal representation of n
(base.ts lines 61-62). -/
def padTwo (n : Nat) : String :=
  if n < 10 then "0" ++ toString n else toString n

/-- BaseHandler.formatDate (base.ts lines 59-64): YYYY-MM-DD with
zero-padded month and day; the year is not padded. -/
def formatDate (dt : CivilDate) : String :=
  toString dt.year ++ "-" ++ padTwo dt.month ++ "-" ++ padTwo dt.day

/-- The DateRange record of base.ts getDefaultDateRange. -/
structure DateRange where
  start_date : String
  end_date : String
deriving DecidableEq

/-- BaseHandler.getDefaultDateRange (base.ts lines 48-57): today and
today minus 30 days, both formatted.  The wall clock (new Date()) is the
explicit argument today. -/
def getDefaultDateRange (today : CivilDate) : DateRange :=
  let thirtyDaysAgo := setDate today ((today.day : Int) - 30)
  { start_date := formatDate thirtyDaysAgo, end_date := formatDate today }

/-- A value of the argument bag.  The handlers treat every argument as a
string except keywords of the keyword-research tool, which must be an
array; vList also lets us express a non-string value reaching a
string-typed slot. -/
inductive ArgVal where
  | vStr (s : String)
  | vList (vs : List String)
deriving DecidableEq

/-- JS truthiness of an argument value: undefined and the empty string are
falsy; every array (including the empty array) is truthy. -/
def ArgVal.truthy : ArgVal → Bool
  | .vStr s => !(s == "")
  | .vList _ => true

/-- JS String() conversion as applied by URLSearchParams.append: an array
joins its elements with commas. -/
def ArgVal.toStr : ArgVal → String
  | .vStr s => s
  | .vList vs => String.intercalate "," vs

/-- JS truthiness of an optional string argument: undefined and "" are falsy. -/
def strTruthy : Option String → Bool
  | none => false
  | some s => !(s == "")

/-- JS truthiness of an optional argument value. -/
def argTruthy : Option ArgVal → Bool
  | none => false
  | some v => v.truthy

/-- The JS expression x || dflt for a string-or-undefined x, as used for
start_date || dateRange.start_date in every date-taking handler: the
default is substituted when x is undefined or the empty string. -/
def jsOr (o : Option String) (dflt : String) : String :=
  match o with
  | none => dflt
  | some s => if s = "" then dflt else s

/-- A destructuring default, as in const { country = "in" } = args: the
default is substituted only when the property is undefined. -/
def jsDefault (o : Option String) (dflt : String) : String := o.getD dflt

/-- The argument bag of a ToolCallRequest.  One record with every field any
handler destructures; an absent property is none. -/
structure Args where
  app : Option String := none
  data : Option String := none
  country : Option String := none
  language : Option String := none
  start_date : Option String := none
  end_date : Option String := none
  date : Option String := none
  keywords : Option ArgVal := none
  platform : Option String := none
deriving DecidableEq

/-- The loop body of BaseHandler.buildQueryString (base.ts lines 69-73):
an entry is appended to the URLSearchParams only when its value is neither
undefined nor the empty string. -/
def retainParam (p : String × Option String) : Option (String × String) :=
  match p.2 with
  | none => none
  | some v => if v = "" then none else some (p.1, v)

/-- The entries URLSearchParams retains in BaseHandler.buildQueryString
(base.ts lines 69-73): entries whose value is undefined or the empty string
are skipped; the rest are appended in order.  This list is the
NormalizedQuery actually sent. -/
def buildQueryParams (params : List (String × Option String)) : List (String × String) :=
  params.filterMap retainParam

/-- BaseHandler.buildQueryString (base.ts lines 66-77): the retained
entries joined key=value with ampersands, with a leading question mark iff
any entry was retained.  (Percent-encoding by URLSearchParams is the
identity on the plain values exercised here and is not modelled.) -/
def buildQueryString (params : List (String × Option String)) : String :=
  let queryString :=
    String.intercalate "&" ((buildQueryParams params).map (fun p => p.1 ++ "=" ++ p.2))
  if queryString = "" then "" else "?" ++ queryString

/-- The structured body sent by KeywordResearchHandler via fetchApiPost. -/
structure KRBody where
  keywords : List String
  country : String
  language : String
  platform : String
deriving DecidableEq

/-- HTTP method of an outbound request. -/
inductive HttpMethod where
  | get
  | post
deriving DecidableEq

/-- An outbound request as built by BaseHandler.fetchApi or
BaseHandler.fetchApiPost, up to the point of the network call: full URL,
headers and body. -/
structure OutboundRequest where
  method : HttpMethod
  url : String
  headers : List (String × String)
  body : Option KRBody := none
deriving DecidableEq

/-- The request built by BaseHandler.fetchApi (base.ts lines 79-96): GET on
apiUrl ++ endpoint ++ query string; the Authorization header is added only
when the configured token is truthy (non-empty), base.ts lines 88-90. -/
def fetchApiRequest (cfg : Config) (endpoint : String)
    (queryParams : List (String × Option String)) : OutboundRequest :=
  { method := .get
    url := cfg.apiUrl ++ endpoint ++ buildQueryString queryParams
    headers :=
      [("Accept", "application/json"), ("Content-Type", "application/json")] ++
        (if cfg.apiToken ≠ "" then [("Authorization", "Token " ++ cfg.apiToken)] else [])
    body := none }

/-- The request built by BaseHandler.fetchApiPost (base.ts lines 112-125):
POST on apiUrl ++ endpoint; the Authorization header is attached
unconditionally, with whatever token is configured (base.ts line 118). -/
def fetchApiPostRequest (cfg : Config) (endpoint : String) (body : KRBody) : OutboundRequest :=
  { method := .post
    url := cfg.apiUrl ++ endpoint
    headers :=
      [("Accept", "application/json"), ("Content-Type", "application/json"),
       ("Authorization", "Token " ++ cfg.apiToken)]
    body := some body }

/-- Outcome of the outbound fetch, abstracting the HTTP transport: a 2xx
response (json holds the text the handler will place in the envelope after
JSON.parse and pretty re-serialization), a non-2xx response with its status,
status text and body, or a transport failure. -/
inductive FetchOutcome where
  | ok (json : String)
  | httpError (status : Nat) (statusText : String) (body : String)
  | transportError (msg : String)
deriving DecidableEq

/-- A single content block of a ResponseEnvelope. -/
structure TextContent where
  type : String
  text : String
deriving DecidableEq

/-- A ResponseEnvelope: the content array of text blocks every handler and
the dispatcher return. -/
structure Envelope where
  content : List TextContent
deriving DecidableEq

/-- The error result of BaseHandler.fetchApi after the network call
(base.ts lines 98-108): a non-ok response throws
"API request failed (status): body"; a transport failure propagates its
message.  On success the parsed JSON is returned. -/
def fetchApiResult : FetchOutcome → Except String String
  | .ok json => .ok json
  | .httpError status _ body =>
      .error ("API request failed (" ++ toString status ++ "): " ++ body)
  | .transportError msg => .error msg

/-- The error result of BaseHandler.fetchApiPost after the network call
(base.ts lines 127-131): a non-ok response throws
"API request failed: status statusText". -/
def fetchApiPostResult : FetchOutcome → Except String String
  | .ok json => .ok json
  | .httpError status statusText _ =>
      .error ("API request failed: " ++ toString status ++ " " ++ statusText)
  | .transportError msg => .error msg

/-- The shared try block tail of every GET handler: issue the request,
wrap the upstream JSON in a single text block, and prefix any failure with
the handler-specific message, as each handler's catch clause does. -/
def runFetchGet (msgStart : String) (fetch : OutboundRequest → FetchOutcome)
    (req : OutboundRequest) : Except String Envelope :=
  match fetchApiResult (fetch req) with
  | .ok json => .ok { content := [{ type := "text", text := json }] }
  | .error e => .error (msgStart ++ e)

/-- The try block tail of KeywordResearchHandler: as runFetchGet but with
the fetchApiPost error format. -/
def runFetchPost (msgStart : String) (fetch : OutboundRequest → FetchOutcome)
    (req : OutboundRequest) : Except String Envelope :=
  match fetchApiPostResult (fetch req) with
  | .ok json => .ok { content := [{ type := "text", text := json }] }
  | .error e => .error (msgStart ++ e)

namespace AppleMetadataHandler

/-- The queryParams object of AppleMetadataHandler.handle
(src/handlers/appleMetadata.ts): app, data(title), country(in),
language(en), start and end date with the 30-day defaults. -/
def queryParams (now : CivilDate) (args : Args) : List (String × Option String) :=
  let dateRange := getDefaultDateRange now
  [("app", args.app),
   ("data", some (jsDefault args.data "title")),
   ("country", some (jsDefault args.country "in")),
   ("language", some (jsDefault args.language "en")),
   ("start_date", some (jsOr args.start_date dateRange.start_date)),
   ("end_date", some (jsOr args.end_date dateRange.end_date))]

/-- The part of AppleMetadataHandler.handle before the outbound call:
required-field check, then the GET request for /metadata/apple/. -/
def buildRequest (cfg : Config) (now : CivilDate) (args : Args) :
    Except String OutboundRequest :=
  if strTruthy args.app then
    .ok (fetchApiRequest cfg "/metadata/apple/" (queryParams now args))
  else
    .error "App ID is required"

/-- AppleMetadataHandler.handle: validation errors propagate unwrapped;
fetch failures are prefixed by the catch clause. -/
def handle (cfg : Config) (now : CivilDate) (args : Args)
    (fetch : OutboundRequest → FetchOutcome) : Except String Envelope :=
  match buildRequest cfg now args with
  | .error e => .error e
  | .ok req => runFetchGet "Failed to fetch Apple metadata: " fetch req

end AppleMetadataHandler

namespace AppleRankHandler

/-- The queryParams object of AppleRankHandler.handle
(src/handlers/appleRank.ts lines 13-18). -/
def queryParams (now : CivilDate) (args : Args) : List (String × Option String) :=
  let dateRange := getDefaultDateRange now
  [("app", args.app),
   ("country", some (jsDefault args.country "in")),
   ("start_date", some (jsOr args.start_date dateRange.start_date)),
   ("end_date", some (jsOr args.end_date dateRange.end_date))]

/-- The part of AppleRankHandler.handle before the outbound call
(src/handlers/appleRank.ts lines 7-21). -/
def buildRequest (cfg : Config) (now : CivilDate) (args : Args) :
    Except String OutboundRequest :=
  if strTruthy args.app then
    .ok (fetchApiRequest cfg "/category/rank/apple/" (queryParams now args))
  else
    .error "App ID is required"

/-- AppleRankHandler.handle. -/
def handle (cfg : Config) (now : CivilDate) (args : Args)
    (fetch : OutboundRequest → FetchOutcome) : Except String Envelope :=
  match buildRequest cfg now args with
  | .error e => .error e
  | .ok req => runFetchGet "Failed to fetch Apple category ranks: " fetch req

end AppleRankHandler

namespace AndroidMetadataHandler

/-- The queryParams object of AndroidMetadataHandler.handle. -/
def queryParams (now : CivilDate) (args : Args) : List (String × Option String) :=
  let dateRange := getDefaultDateRange now
  [("app", args.app),
   ("data", some (jsDefault args.data "title")),
   ("country", some (jsDefault args.country "in")),
   ("language", some (jsDefault args.language "en")),
   ("start_date", some (jsOr args.start_date dateRange.start_date)),
   ("end_date", some (jsOr args.end_date dateRange.end_date))]

/-- The part of AndroidMetadataHandler.handle before the outbound call. -/
def buildRequest (cfg : Config) (now : CivilDate) (args : Args) :
    Except String OutboundRequest :=
  if strTruthy args.app then
    .ok (fetchApiRequest cfg "/metadata/android/" (queryParams now args))
  else
    .error "App package name is required"

/-- AndroidMetadataHandler.handle. -/
def handle (cfg : Config) (now : CivilDate) (args : Args)
    (fetch : OutboundRequest → FetchOutcome) : Except String Envelope :=
  match buildRequest cfg now args with
  | .error e => .error e
  | .ok req => runFetchGet "Failed to fetch Android metadata: " fetch req

end AndroidMetadataHandler

namespace AndroidRankHandler

/-- The queryParams object of AndroidRankHandler.handle. -/
def queryParams (now : CivilDate) (args : Args) : List (String × Option String) :=
  let dateRange := getDefaultDateRange now
  [("app", args.app),
   ("country", some (jsDefault args.country "in")),
   ("start_date", some (jsOr args.start_date dateRange.start_date)),
   ("end_date", some (jsOr args.end_date dateRange.end_date))]

/-- The part of AndroidRankHandler.handle before the outbound call. -/
def buildRequest (cfg : Config) (now : CivilDate) (args : Args) :
    Except String OutboundRequest :=
  if strTruthy args.app then
    .ok (fetchApiRequest cfg "/category/rank/android/" (queryParams now args))
  else
    .error "App package name is required"

/-- AndroidRankHandler.handle. -/
def handle (cfg : Config) (now : CivilDate) (args : Args)
    (fetch : OutboundRequest → FetchOutcome) : Except String Envelope :=
  match buildRequest cfg now args with
  | .error e => .error e
  | .ok req => runFetchGet "Failed to fetch Android category ranks: " fetch req

end AndroidRankHandler

namespace KeywordResearchHandler

/-- The validation error message of KeywordResearchHandler.handle line 8. -/
def keywordsError : String := "Keywords array is required and must not be empty"

/-- The part of KeywordResearchHandler.handle before the outbound call
(keywordResearch.ts lines 5-22).  The source condition
(!keywords or !Array.isArray(keywords) or keywords.length === 0) rejects an
absent value, any non-array value (an empty string is already falsy, a
non-empty string fails Array.isArray) and the empty array; then the
platform must be android or ios; then the POST body is assembled. -/
def buildRequest (cfg : Config) (args : Args) : Except String OutboundRequest :=
  let country := jsDefault args.country "in"
  let language := jsDefault args.language "en"
  let platform := jsDefault args.platform "android"
  match args.keywords with
  | some (ArgVal.vList vs) =>
    if vs.length = 0 then
      .error keywordsError
    else if platform = "android" ∨ platform = "ios" then
      .ok (fetchApiPostRequest cfg ("/keyword-research/" ++ platform ++ "/")
        { keywords := vs, country := country, language := language, platform := platform })
    else
      .error "Platform must be either \"android\" or \"ios\""
  | some (ArgVal.vStr _) => .error keywordsError
  | none => .error keywordsError

/-- KeywordResearchHandler.handle. -/
def handle (cfg : Config) (args : Args)
    (fetch : OutboundRequest → FetchOutcome) : Except String Envelope :=
  match buildRequest cfg args with
  | .error e => .error e
  | .ok req => runFetchPost "Failed to fetch keyword research data: " fetch req

end KeywordResearchHandler

namespace AppleReviewsHandler

/-- Modelled from the spec: the file src/handlers/appleReviews.ts is not
among the provided sources (only its import and dispatch arm in
src/index.ts are).  Per the spec table in section 4.2 the tool requires
app, takes country(in) and the start and end dates, and issues a GET to
/reviews/apple/; the algorithmic shape is the one shared by every GET
handler, identical to AppleRankHandler. -/
def queryParams (now : CivilDate) (args : Args) : List (String × Option String) :=
  let dateRange := getDefaultDateRange now
  [("app", args.app),
   ("country", some (jsDefault args.country "in")),
   ("start_date", some (jsOr args.start_date dateRange.start_date)),
   ("end_date", some (jsOr args.end_date dateRange.end_date))]

/-- Modelled from the spec: the required-field check on app, then the GET
request for /reviews/apple/ (path implied by the spec, section 6). -/
def buildRequest (cfg : Config) (now : CivilDate) (args : Args) :
    Except String OutboundRequest :=
  if strTruthy args.app then
    .ok (fetchApiRequest cfg "/reviews/apple/" (queryParams now args))
  else
    .error "App ID is required"

/-- Modelled from the spec: AppleReviewsHandler.handle with the shared
validation-then-fetch shape. -/
def handle (cfg : Config) (now : CivilDate) (args : Args)
    (fetch : OutboundRequest → FetchOutcome) : Except String Envelope :=
  match buildRequest cfg now args with
  | .error e => .error e
  | .ok req => runFetchGet "Failed to fetch Apple reviews: " fetch req

end AppleReviewsHandler

namespace AndroidReviewsHandler

/-- The queryParams object of AndroidReviewsHandler.handle
(androidReviews.ts lines 12-18): app, language(en) and the dates; this
handler takes no country. -/
def queryParams (now : CivilDate) (args : Args) : List (String × Option String) :=
  let dateRange := getDefaultDateRange now
  [("app", args.app),
   ("language", some (jsDefault args.language "en")),
   ("start_date", some (jsOr args.start_date dateRange.start_date)),
   ("end_date", some (jsOr args.end_date dateRange.end_date))]

/-- The part of AndroidReviewsHandler.handle before the outbound call
(androidReviews.ts lines 7-21). -/
def buildRequest (cfg : Config) (now : CivilDate) (args : Args) :
    Except String OutboundRequest :=
  if strTruthy args.app then
    .ok (fetchApiRequest cfg "/reviews/android/" (queryParams now args))
  else
    .error "App package name is required"

/-- AndroidReviewsHandler.handle. -/
def handle (cfg : Config) (now : CivilDate) (args : Args)
    (fetch : OutboundRequest → FetchOutcome) : Except String Envelope :=
  match buildRequest cfg now args with
  | .error e => .error e
  | .ok req => runFetchGet "Failed to fetch Android reviews: " fetch req

end AndroidReviewsHandler

namespace AndroidKeywordRankHandler

/-- The queryParams object of AndroidKeywordRankHandler.handle
(androidKeywordRank.ts lines 16-30): app, keywords, country(in),
language(en), then either the single date (when date is truthy) or the
start and end dates with the 30-day defaults. -/
def queryParams (now : CivilDate) (args : Args) : List (String × Option String) :=
  let dateRange := getDefaultDateRange now
  let base := [("app", args.app),
               ("keywords", Option.map ArgVal.toStr args.keywords),
               ("country", some (jsDefault args.country "in")),
               ("language", some (jsDefault args.language "en"))]
  if strTruthy args.date then
    base ++ [("date", args.date)]
  else
    base ++ [("start_date", some (jsOr args.start_date dateRange.start_date)),
             ("end_date", some (jsOr args.end_date dateRange.end_date))]

/-- The part of AndroidKeywordRankHandler.handle before the outbound call
(androidKeywordRank.ts lines 7-33): app check, keywords check, then the
GET request for /ranks/android/. -/
def buildRequest (cfg : Config) (now : CivilDate) (args : Args) :
    Except String OutboundRequest :=
  if !strTruthy args.app then
    .error "App package name is required"
  else if !argTruthy args.keywords then
    .error "Keywords are required"
  else
    .ok (fetchApiRequest cfg "/ranks/android/" (queryParams now args))

/-- AndroidKeywordRankHandler.handle. -/
def handle (cfg : Config) (now : CivilDate) (args : Args)
    (fetch : OutboundRequest → FetchOutcome) : Except String Envelope :=
  match buildRequest cfg now args with
  | .error e => .error e
  | .ok req => runFetchGet "Failed to fetch Android keyword ranks: " fetch req

end AndroidKeywordRankHandler

namespace AppleKeywordRankHandler

/-- Modelled from the spec: the file src/handlers/appleKeywordRank.ts is
not among the provided sources (only its import and dispatch arm in
src/index.ts are).  Per the spec table in section 4.2 the tool requires
app and keywords, takes country(in), language(en) and either a single
date or the start and end dates with the same date-versus-range rule as
the Android keyword-rank tool, whose algorithmic shape (spec: identical
for all handlers) it mirrors; the GET path /ranks/apple/ is the one the
spec lists as implied. -/
def queryParams (now : CivilDate) (args : Args) : List (String × Option String) :=
  let dateRange := getDefaultDateRange now
  let base := [("app", args.app),
               ("keywords", Option.map ArgVal.toStr args.keywords),
               ("country", some (jsDefault args.country "in")),
               ("language", some (jsDefault args.language "en"))]
  if strTruthy args.date then
    base ++ [("date", args.date)]
  else
    base ++ [("start_date", some (jsOr args.start_date dateRange.start_date)),
             ("end_date", some (jsOr args.end_date dateRange.end_date))]

/-- Modelled from the spec: validation of app and keywords, then the GET
request for /ranks/apple/. -/
def buildRequest (cfg : Config) (now : CivilDate) (args : Args) :
    Except String OutboundRequest :=
  if !strTruthy args.app then
    .error "App ID is required"
  else if !argTruthy args.keywords then
    .error "Keywords are required"
  else
    .ok (fetchApiRequest cfg "/ranks/apple/" (queryParams now args))

/-- Modelled from the spec: AppleKeywordRankHandler.handle with the shared
validation-then-fetch shape. -/
def handle (cfg : Config) (now : CivilDate) (args : Args)
    (fetch : OutboundRequest → FetchOutcome) : Except String Envelope :=
  match buildRequest cfg now args with
  | .error e => .error e
  | .ok req => runFetchGet "Failed to fetch Apple keyword ranks: " fetch req

end AppleKeywordRankHandler

namespace UserJobsHandler

/-- The part of UserJobsHandler.handle before the outbound call
(userJobs.ts line 7): no validation, a GET to /userjobs/ with no
parameters. -/
def buildRequest (cfg : Config) : Except String OutboundRequest :=
  .ok (fetchApiRequest cfg "/userjobs/" [])

/-- UserJobsHandler.handle; the handler takes the argument bag and ignores
it (userJobs.ts line 4). -/
def handle (cfg : Config) (_args : Args)
    (fetch : OutboundRequest → FetchOutcome) : Except String Envelope :=
  match buildRequest cfg with
  | .error e => .error e
  | .ok req => runFetchGet "Failed to fetch user jobs: " fetch req

end UserJobsHandler

/-- The ten registered tool names, in the order of the tools array of
src/index.ts lines 61-364. -/
def toolNames : List String :=
  ["appvector_apple_metadata",
   "appvector_apple_rank",
   "appvector_android_metadata",
   "appvector_android_rank",
   "appvector_keyword_research",
   "appvector_apple_reviews",
   "appvector_android_reviews",
   "appvector_apple_keyword_rank",
   "appvector_android_keyword_rank",
   "appvector_user_jobs"]

/-- The switch statement of the CallToolRequestSchema handler
(src/index.ts lines 376-409), as it stands inside the try block: each
known name invokes its handler; the default case throws
"Unknown tool: name". -/
def runTool (cfg : Config) (now : CivilDate) (name : String) (args : Args)
    (fetch : OutboundRequest → FetchOutcome) : Except String Envelope :=
  if name = "appvector_apple_metadata" then AppleMetadataHandler.handle cfg now args fetch
  else if name = "appvector_apple_rank" then AppleRankHandler.handle cfg now args fetch
  else if name = "appvector_android_metadata" then AndroidMetadataHandler.handle cfg now args fetch
  else if name = "appvector_android_rank" then AndroidRankHandler.handle cfg now args fetch
  else if name = "appvector_keyword_research" then KeywordResearchHandler.handle cfg args fetch
  else if name = "appvector_apple_reviews" then AppleReviewsHandler.handle cfg now args fetch
  else if name = "appvector_android_reviews" then AndroidReviewsHandler.handle cfg now args fetch
  else if name = "appvector_apple_keyword_rank" then AppleKeywordRankHandler.handle cfg now args fetch
  else if name = "appvector_android_keyword_rank" then AndroidKeywordRankHandler.handle cfg now args fetch
  else if name = "appvector_user_jobs" then UserJobsHandler.handle cfg args fetch
  else .error ("Unknown tool: " ++ name)

/-- The error envelope produced by the catch clause of the
CallToolRequestSchema handler (src/index.ts lines 410-419). -/
def errorEnvelope (msg : String) : Envelope :=
  { content := [{ type := "text", text := "Error: " ++ msg }] }

/-- The full CallToolRequestSchema handler (src/index.ts lines 372-420):
the whole switch, its default case included, runs inside one try; every
thrown error is converted into the text-wrapped error envelope. -/
def dispatch (cfg : Config) (now : CivilDate) (name : String) (args : Args)
    (fetch : OutboundRequest → FetchOutcome) : Envelope :=
  match runTool cfg now name args fetch with
  | .ok env => env
  | .error msg => errorEnvelope msg

/-- The eight tools whose contract requires the app argument: every tool
except keyword research and user jobs. -/
def appRequiringTools : List String :=
  ["appvector_apple_metadata",
   "appvector_apple_rank",
   "appvector_android_metadata",
   "appvector_android_rank",
   "appvector_apple_reviews",
   "appvector_android_reviews",
   "appvector_apple_keyword_rank",
   "appvector_android_keyword_rank"]

/-- The eight tools whose handler takes a start and end date. -/
def dateRangeTools : List String :=
  ["appvector_apple_metadata",
   "appvector_apple_rank",
   "appvector_android_metadata",
   "appvector_android_rank",
   "appvector_apple_reviews",
   "appvector_android_reviews",
   "appvector_apple_keyword_rank",
   "appvector_android_keyword_rank"]

/-- The query parameter list a named date-range tool builds: lookup table
over the per-handler queryParams definitions, for stating properties
uniformly over tools. -/
def toolQueryParams (name : String) (now : CivilDate) (args : Args) :
    List (String × Option String) :=
  if name = "appvector_apple_metadata" then AppleMetadataHandler.queryParams now args
  else if name = "appvector_apple_rank" then AppleRankHandler.queryParams now args
  else if name = "appvector_android_metadata" then AndroidMetadataHandler.queryParams now args
  else if name = "appvector_android_rank" then AndroidRankHandler.queryParams now args
  else if name = "appvector_apple_reviews" then AppleReviewsHandler.queryParams now args
  else if name = "appvector_android_reviews" then AndroidReviewsHandler.queryParams now args
  else if name = "appvector_apple_keyword_rank" then AppleKeywordRankHandler.queryParams now args
  else if name = "appvector_android_keyword_rank" then AndroidKeywordRankHandler.queryParams now args
  else []

/-! Helper lemmas about the embedded definitions. -/

theorem formatDate_ne_empty (dt : CivilDate) : formatDate dt ≠ "" := by
  intro h
  have hl : (formatDate dt).length = 0 := by rw [h]; rfl
  have hm : ("-" : String).length = 1 := rfl
  simp only [formatDate, String.length_append, hm] at hl
  omega

theorem getDefaultDateRange_start_ne (now : CivilDate) :
    (getDefaultDateRange now).start_date ≠ "" := by
  simpa [getDefaultDateRange] using formatDate_ne_empty (setDate now ((now.day : Int) - 30))

theorem getDefaultDateRange_end_ne (now : CivilDate) :
    (getDefaultDateRange now).end_date ≠ "" := by
  simpa [getDefaultDateRange] using formatDate_ne_empty now

theorem jsOr_ne_empty (o : Option String) (dflt : String) (h : dflt ≠ "") :
    jsOr o dflt ≠ "" := by
  cases o with
  | none => simpa [jsOr] using h
  | some s =>
    by_cases hs : s = ""
    · simpa [jsOr, hs] using h
    · simp [jsOr, hs]

theorem jsOr_some_empty (dflt : String) : jsOr (some "") dflt = jsOr none dflt := by
  simp [jsOr]

theorem buildQueryParams_key_mem {params : List (String × Option String)}
    {kv : String × String} (h : kv ∈ buildQueryParams params) :
    kv.1 ∈ params.map Prod.fst := by
  unfold buildQueryParams at h
  obtain ⟨a, ha, hf⟩ := List.mem_filterMap.mp h
  obtain ⟨k, v⟩ := a
  cases v with
  | none => simp [retainParam] at hf
  | some s =>
    by_cases hs : s = ""
    · simp [retainParam, hs] at hf
    · simp [retainParam, hs] at hf
      rw [← hf]
      exact List.mem_map.mpr ⟨(k, some s), ha, rfl⟩

theorem buildQueryParams_val_ne {params : List (String × Option String)}
    {kv : String × String} (h : kv ∈ buildQueryParams params) : kv.2 ≠ "" := by
  unfold buildQueryParams at h
  obtain ⟨a, ha, hf⟩ := List.mem_filterMap.mp h
  obtain ⟨k, v⟩ := a
  cases v with
  | none => simp [retainParam] at hf
  | some s =>
    by_cases hs : s = ""
    · simp [retainParam, hs] at hf
    · simp [retainParam, hs] at hf
      rw [← hf]
      exact hs

theorem mem_buildQueryParams_of {params : List (String × Option String)}
    {k v : String} (hin : (k, some v) ∈ params) (hv : v ≠ "") :
    (k, v) ∈ buildQueryParams params := by
  unfold buildQueryParams
  exact List.mem_filterMap.mpr ⟨(k, some v), hin, by simp [retainParam, hv]⟩

theorem buildQueryParams_drop_empty (l1 l2 : List (String × Option String)) (k : String) :
    buildQueryParams (l1 ++ (k, some "") :: l2) = buildQueryParams (l1 ++ l2) := by
  simp [buildQueryParams, List.filterMap_append]
  rw [List.filterMap_cons_none]
  rfl

theorem buildQueryParams_drop_none (l1 l2 : List (String × Option String)) (k : String) :
    buildQueryParams (l1 ++ (k, none) :: l2) = buildQueryParams (l1 ++ l2) := by
  simp [buildQueryParams, List.filterMap_append]
  rw [List.filterMap_cons_none]
  rfl

/-! The claims. -/

/-- Claim C5: the default DateRange is the 30-day trailing window of the
clock, formatted YYYY-MM-DD with zero-padded month and day; for a fixed
now of 2025-09-26 it equals start 2025-08-27, end 2025-09-26, and the two
endpoint dates are exactly 30 days apart by the independent day count. -/
theorem claim_C5_default_date_range :
    getDefaultDateRange ⟨2025, 9, 26⟩ =
      { start_date := "2025-08-27", end_date := "2025-09-26" } ∧
    daysFromCivil ⟨2025, 9, 26⟩ = daysFromCivil ⟨2025, 8, 27⟩ + 30 := by
  constructor
  · decide
  · decide

/-- Claim C6: query construction drops entries whose value is undefined or
empty (they vanish entirely, wherever they stand in the map), every
retained entry has a non-empty value, a map reducing to country=in yields
exactly that query, and a map with no retained entries yields the empty
string with no question mark. -/
theorem claim_C6_query_construction :
    buildQueryString [("country", some "in"), ("language", some "")] = "?country=in" ∧
    buildQueryString [("language", some ""), ("country", none)] = "" ∧
    buildQueryString ([] : List (String × Option String)) = "" ∧
    (∀ params : List (String × Option String),
      ∀ kv ∈ buildQueryParams params, kv.2 ≠ "") ∧
    (∀ (l1 l2 : List (String × Option String)) (k : String),
      buildQueryParams (l1 ++ (k, some "") :: l2) = buildQueryParams (l1 ++ l2) ∧
      buildQueryParams (l1 ++ (k, none) :: l2) = buildQueryParams (l1 ++ l2)) := by
  refine ⟨by decide, by decide, by decide, ?_, ?_⟩
  · intro params kv h
    exact buildQueryParams_val_ne h
  · intro l1 l2 k
    exact ⟨buildQueryParams_drop_empty l1 l2 k, buildQueryParams_drop_none l1 l2 k⟩

/-- Witness for claim C6: the non-emptiness part of the theorem applied to
the concrete retained entry country=in of the concrete map of the claim. -/
theorem claim_C6_query_construction_witness :
    (("country", "in") ∈ buildQueryParams [("country", some "in"), ("language", some "")]) ∧
    ("in" : String) ≠ "" :=
  ⟨by decide,
   claim_C6_query_construction.2.2.2.1 [("country", some "in"), ("language", some "")]
     ("country", "in") (by decide)⟩

/-- Claim C1 counterexample: dispatching the unknown tool name
no_such_tool does not surface a protocol-level failure: the throw of the
default switch case stands inside the try block of the
CallToolRequestSchema handler, so it is caught and converted into exactly
the text-wrapped error envelope used for known-tool failures. -/
theorem claim_C1_unknown_tool_counterexample :
    dispatch ⟨"https://appvector.io/external-apis/api", "t"⟩ ⟨2025, 9, 26⟩
      "no_such_tool" {} (fun _ => FetchOutcome.ok "x") =
      { content := [{ type := "text", text := "Error: Unknown tool: no_such_tool" }] } := by
  decide

/-- Claim C1 as amended: for every dispatch of a request whose name is not
one of the ten registered tool names, the dispatcher returns the same
text-wrapped error envelope as for known-tool failures, whose single text
block reads Error: Unknown tool: name; no raw fault escapes. -/
theorem claim_C1_unknown_tool_amended (cfg : Config) (now : CivilDate) (name : String)
    (args : Args) (fetch : OutboundRequest → FetchOutcome) (h : name ∉ toolNames) :
    dispatch cfg now name args fetch = errorEnvelope ("Unknown tool: " ++ name) := by
  have h1 : name ≠ "appvector_apple_metadata" := fun e => h (by rw [e]; decide)
  have h2 : name ≠ "appvector_apple_rank" := fun e => h (by rw [e]; decide)
  have h3 : name ≠ "appvector_android_metadata" := fun e => h (by rw [e]; decide)
  have h4 : name ≠ "appvector_android_rank" := fun e => h (by rw [e]; decide)
  have h5 : name ≠ "appvector_keyword_research" := fun e => h (by rw [e]; decide)
  have h6 : name ≠ "appvector_apple_reviews" := fun e => h (by rw [e]; decide)
  have h7 : name ≠ "appvector_android_reviews" := fun e => h (by rw [e]; decide)
  have h8 : name ≠ "appvector_apple_keyword_rank" := fun e => h (by rw [e]; decide)
  have h9 : name ≠ "appvector_android_keyword_rank" := fun e => h (by rw [e]; decide)
  have h10 : name ≠ "appvector_user_jobs" := fun e => h (by rw [e]; decide)
  simp [dispatch, runTool, h1, h2, h3, h4, h5, h6, h7, h8, h9, h10, errorEnvelope]

/-- Witness for the amended claim C1 at the concrete unknown name
no_such_tool. -/
theorem claim_C1_unknown_tool_amended_witness :
    dispatch ⟨"https://appvector.io/external-apis/api", "t"⟩ ⟨2025, 9, 26⟩
      "no_such_tool" { app := some "284882215" } (fun _ => FetchOutcome.ok "x") =
      errorEnvelope ("Unknown tool: " ++ "no_such_tool") :=
  claim_C1_unknown_tool_amended _ _ _ _ _ (by decide)

/-- Claim C2: for every request whose name is one of the ten registered
tool names, dispatch always returns a ResponseEnvelope: a failure the
handler raises (whatever the fetch outcome: validation, transport or
upstream status) is converted into an envelope whose single text block is
Error: followed by the message, and a successful handler envelope is
returned unchanged. -/
theorem claim_C2_uniform_envelope (cfg : Config) (now : CivilDate) (name : String)
    (args : Args) (fetch : OutboundRequest → FetchOutcome) (_h : name ∈ toolNames) :
    (∃ env, runTool cfg now name args fetch = .ok env ∧
      dispatch cfg now name args fetch = env) ∨
    (∃ msg, runTool cfg now name args fetch = .error msg ∧
      dispatch cfg now name args fetch =
        { content := [{ type := "text", text := "Error: " ++ msg }] }) := by
  cases hrt : runTool cfg now name args fetch with
  | ok env => exact Or.inl ⟨env, rfl, by simp [dispatch, hrt]⟩
  | error msg => exact Or.inr ⟨msg, rfl, by simp [dispatch, hrt, errorEnvelope]⟩

/-- Witness for claim C2 at the registered name appvector_user_jobs with a
successful fetch. -/
theorem claim_C2_uniform_envelope_witness :
    (∃ env, runTool ⟨"u", "t"⟩ ⟨2025, 9, 26⟩ "appvector_user_jobs" {}
        (fun _ => FetchOutcome.ok "x") = .ok env ∧
      dispatch ⟨"u", "t"⟩ ⟨2025, 9, 26⟩ "appvector_user_jobs" {}
        (fun _ => FetchOutcome.ok "x") = env) ∨
    (∃ msg, runTool ⟨"u", "t"⟩ ⟨2025, 9, 26⟩ "appvector_user_jobs" {}
        (fun _ => FetchOutcome.ok "x") = .error msg ∧
      dispatch ⟨"u", "t"⟩ ⟨2025, 9, 26⟩ "appvector_user_jobs" {}
        (fun _ => FetchOutcome.ok "x") =
        { content := [{ type := "text", text := "Error: " ++ msg }] }) :=
  claim_C2_uniform_envelope _ _ _ _ _ (by decide)

/-- Claim C3 counterexample: with an empty configured token, the POST
request built by the keyword research handler still carries an
Authorization header (of value Token followed by nothing), refuting that
the header is attached only when a non-empty token was configured. -/
theorem claim_C3_auth_header_counterexample :
    KeywordResearchHandler.buildRequest ⟨"https://appvector.io/external-apis/api", ""⟩
      { keywords := some (ArgVal.vList ["fitness"]) } =
    Except.ok
      { method := HttpMethod.post
        url := "https://appvector.io/external-apis/api/keyword-research/android/"
        headers := [("Accept", "application/json"), ("Content-Type", "application/json"),
                    ("Authorization", "Token ")]
        body := some { keywords := ["fitness"], country := "in", language := "en",
                       platform := "android" } } := by
  rfl

/-- Claim C3 as amended: a GET request built by fetchApi carries an
Authorization header if and only if a non-empty token was configured (and
the call proceeds without the header, rather than failing, when none is);
a POST request built by fetchApiPost always carries the header
Authorization: Token token, even when the configured token is empty. -/
theorem claim_C3_auth_header_amended (cfg : Config) (endpoint : String)
    (qp : List (String × Option String)) (body : KRBody) :
    ((∃ v, ("Authorization", v) ∈ (fetchApiRequest cfg endpoint qp).headers) ↔
      cfg.apiToken ≠ "") ∧
    ("Authorization", "Token " ++ cfg.apiToken) ∈ (fetchApiPostRequest cfg endpoint body).headers := by
  constructor
  · by_cases h : cfg.apiToken = "" <;> simp [fetchApiRequest, h]
  · simp [fetchApiPostRequest]

/-- Claim C7: the keyword research handler rejects a platform outside
android and ios before building any outbound request, defaults an omitted
platform to android, and rejects keywords that are missing, not a list, or
an empty list, all before building any outbound request (buildRequest is
the entire pure part of the handler preceding the network call, so an
error here is an error with zero outbound calls). -/
theorem claim_C7_keyword_research_validation (cfg : Config) (args : Args) :
    (∀ ks p, args.keywords = some (ArgVal.vList ks) → ks ≠ [] →
      args.platform = some p → p ≠ "android" → p ≠ "ios" →
      KeywordResearchHandler.buildRequest cfg args =
        .error "Platform must be either \"android\" or \"ios\"") ∧
    (∀ ks, args.keywords = some (ArgVal.vList ks) → ks ≠ [] → args.platform = none →
      KeywordResearchHandler.buildRequest cfg args =
        .ok (fetchApiPostRequest cfg "/keyword-research/android/"
          { keywords := ks, country := jsDefault args.country "in",
            language := jsDefault args.language "en", platform := "android" })) ∧
    (args.keywords = none →
      KeywordResearchHandler.buildRequest cfg args =
        .error KeywordResearchHandler.keywordsError) ∧
    (∀ s, args.keywords = some (ArgVal.vStr s) →
      KeywordResearchHandler.buildRequest cfg args =
        .error KeywordResearchHandler.keywordsError) ∧
    (args.keywords = some (ArgVal.vList []) →
      KeywordResearchHandler.buildRequest cfg args =
        .error KeywordResearchHandler.keywordsError) := by
  obtain ⟨app, dta, ctry, lang, sd, ed, dte, kws, plt⟩ := args
  refine ⟨?_, ?_, ?_, ?_, ?_⟩
  · intro ks p hk hne hp h1 h2
    simp at hk hp
    subst hk; subst hp
    have hlen : ¬ ks.length = 0 := by simpa [List.length_eq_zero] using hne
    simp [KeywordResearchHandler.buildRequest, hlen, jsDefault, h1, h2]
  · intro ks hk hne hp
    simp at hk hp
    subst hk; subst hp
    have hlen : ¬ ks.length = 0 := by simpa [List.length_eq_zero] using hne
    simp [KeywordResearchHandler.buildRequest, hlen, jsDefault]
  · intro hk
    simp at hk
    subst hk
    rfl
  · intro s hk
    simp at hk
    subst hk
    rfl
  · intro hk
    simp at hk
    subst hk
    rfl

/-- Witness for claim C7: keywords check, platform rejection and platform
defaulting at concrete inputs. -/
theorem claim_C7_keyword_research_validation_witness :
    (KeywordResearchHandler.buildRequest ⟨"u", "t"⟩
        { keywords := some (ArgVal.vList ["fitness"]), platform := some "desktop" } =
      .error "Platform must be either \"android\" or \"ios\"") ∧
    (KeywordResearchHandler.buildRequest ⟨"u", "t"⟩
        { keywords := some (ArgVal.vList ["fitness"]) } =
      .ok (fetchApiPostRequest ⟨"u", "t"⟩ "/keyword-research/android/"
        { keywords := ["fitness"], country := "in", language := "en",
          platform := "android" })) ∧
    (KeywordResearchHandler.buildRequest ⟨"u", "t"⟩ { app := some "a" } =
      .error KeywordResearchHandler.keywordsError) ∧
    (KeywordResearchHandler.buildRequest ⟨"u", "t"⟩
        { keywords := some (ArgVal.vStr "fitness") } =
      .error KeywordResearchHandler.keywordsError) ∧
    (KeywordResearchHandler.buildRequest ⟨"u", "t"⟩
        { keywords := some (ArgVal.vList []) } =
      .error KeywordResearchHandler.keywordsError) := by
  have h := claim_C7_keyword_research_validation ⟨"u", "t"⟩
  refine ⟨(h _).1 ["fitness"] "desktop" rfl (by decide) rfl (by decide) (by decide), ?_, ?_, ?_, ?_⟩
  · exact (h _).2.1 ["fitness"] rfl (by decide) rfl
  · exact (h _).2.2.1 rfl
  · exact (h _).2.2.2.1 "fitness" rfl
  · exact (h _).2.2.2.2 rfl

/-- Claim C8: for every tool requiring the app argument, an invocation
omitting app makes dispatch return the text-wrapped error envelope naming
the missing app field, and the error arises in the pure validation stage,
uniformly in the fetch function, so zero outbound calls are issued. -/
theorem claim_C8_missing_app (cfg : Config) (now : CivilDate) (name : String)
    (args : Args) (h : name ∈ appRequiringTools) (happ : args.app = none) :
    ∃ msg, (msg = "App ID is required" ∨ msg = "App package name is required") ∧
      ∀ fetch, dispatch cfg now name args fetch = errorEnvelope msg := by
  simp [appRequiringTools] at h
  obtain ⟨app, dta, ctry, lang, sd, ed, dte, kws, plt⟩ := args
  simp at happ
  subst happ
  rcases h with h | h | h | h | h | h | h | h <;> subst h
  · exact ⟨"App ID is required", Or.inl rfl, fun _ => rfl⟩
  · exact ⟨"App ID is required", Or.inl rfl, fun _ => rfl⟩
  · exact ⟨"App package name is required", Or.inr rfl, fun _ => rfl⟩
  · exact ⟨"App package name is required", Or.inr rfl, fun _ => rfl⟩
  · exact ⟨"App ID is required", Or.inl rfl, fun _ => rfl⟩
  · exact ⟨"App package name is required", Or.inr rfl, fun _ => rfl⟩
  · exact ⟨"App ID is required", Or.inl rfl, fun _ => rfl⟩
  · exact ⟨"App package name is required", Or.inr rfl, fun _ => rfl⟩

/-- Witness for claim C8: dispatching appvector_android_reviews without
app at a concrete configuration. -/
theorem claim_C8_missing_app_witness :
    ∃ msg, (msg = "App ID is required" ∨ msg = "App package name is required") ∧
      ∀ fetch, dispatch ⟨"u", "t"⟩ ⟨2025, 9, 26⟩ "appvector_android_reviews"
        { language := some "en" } fetch = errorEnvelope msg :=
  claim_C8_missing_app ⟨"u", "t"⟩ ⟨2025, 9, 26⟩ "appvector_android_reviews"
    { language := some "en" } (by decide) rfl

/-- Claim C9: for every tool requiring app, supplying app as the empty
string is rejected with the same validation error as omitting app
entirely (the check tests falsiness, not presence), before any outbound
call. -/
theorem claim_C9_empty_app (cfg : Config) (now : CivilDate) (name : String)
    (args : Args) (h : name ∈ appRequiringTools) :
    ∃ msg, (msg = "App ID is required" ∨ msg = "App package name is required") ∧
      ∀ fetch,
        dispatch cfg now name { args with app := some "" } fetch = errorEnvelope msg ∧
        dispatch cfg now name { args with app := none } fetch = errorEnvelope msg := by
  simp [appRequiringTools] at h
  obtain ⟨app, dta, ctry, lang, sd, ed, dte, kws, plt⟩ := args
  rcases h with h | h | h | h | h | h | h | h <;> subst h
  · exact ⟨"App ID is required", Or.inl rfl, fun _ => ⟨rfl, rfl⟩⟩
  · exact ⟨"App ID is required", Or.inl rfl, fun _ => ⟨rfl, rfl⟩⟩
  · exact ⟨"App package name is required", Or.inr rfl, fun _ => ⟨rfl, rfl⟩⟩
  · exact ⟨"App package name is required", Or.inr rfl, fun _ => ⟨rfl, rfl⟩⟩
  · exact ⟨"App ID is required", Or.inl rfl, fun _ => ⟨rfl, rfl⟩⟩
  · exact ⟨"App package name is required", Or.inr rfl, fun _ => ⟨rfl, rfl⟩⟩
  · exact ⟨"App ID is required", Or.inl rfl, fun _ => ⟨rfl, rfl⟩⟩
  · exact ⟨"App package name is required", Or.inr rfl, fun _ => ⟨rfl, rfl⟩⟩

/-- Witness for claim C9 at appvector_apple_rank with concrete remaining
arguments. -/
theorem claim_C9_empty_app_witness :
    ∃ msg, (msg = "App ID is required" ∨ msg = "App package name is required") ∧
      ∀ fetch,
        dispatch ⟨"u", "t"⟩ ⟨2025, 9, 26⟩ "appvector_apple_rank"
          { ({ country := some "us" } : Args) with app := some "" } fetch = errorEnvelope msg ∧
        dispatch ⟨"u", "t"⟩ ⟨2025, 9, 26⟩ "appvector_apple_rank"
          { ({ country := some "us" } : Args) with app := none } fetch = errorEnvelope msg :=
  claim_C9_empty_app ⟨"u", "t"⟩ ⟨2025, 9, 26⟩ "appvector_apple_rank"
    { country := some "us" } (by decide)

/-- Claim C4 counterexample: with date supplied as the empty string
(present, but falsy) alongside start_date and end_date, the Android
keyword-rank query carries start_date and end_date and no date, because
the source tests if (date) — truthiness — not presence; this refutes the
claim that whenever date is present the query carries date and never
start_date or end_date. -/
theorem claim_C4_date_precedence_counterexample :
    buildQueryParams (AndroidKeywordRankHandler.queryParams ⟨2025, 9, 26⟩
      { app := some "com.spotify.music", keywords := some (ArgVal.vStr "fitness"),
        date := some "", start_date := some "2025-01-01", end_date := some "2025-01-31" }) =
    [("app", "com.spotify.music"), ("keywords", "fitness"), ("country", "in"),
     ("language", "en"), ("start_date", "2025-01-01"), ("end_date", "2025-01-31")] := by
  decide

/-- Claim C4 as amended: in both keyword-rank handlers, whenever the date
argument is present and non-empty the built NormalizedQuery carries date
and never start_date or end_date, even if those were also supplied; and
whenever date is absent or empty the query carries start_date and
end_date (the supplied non-empty values or the 30-day defaults) and no
date. -/
theorem claim_C4_date_precedence_amended (now : CivilDate) (args : Args) :
    (∀ d, args.date = some d → d ≠ "" →
      (("date", d) ∈ buildQueryParams (AndroidKeywordRankHandler.queryParams now args) ∧
       (∀ kv ∈ buildQueryParams (AndroidKeywordRankHandler.queryParams now args),
         kv.1 ≠ "start_date" ∧ kv.1 ≠ "end_date") ∧
       ("date", d) ∈ buildQueryParams (AppleKeywordRankHandler.queryParams now args) ∧
       (∀ kv ∈ buildQueryParams (AppleKeywordRankHandler.queryParams now args),
         kv.1 ≠ "start_date" ∧ kv.1 ≠ "end_date"))) ∧
    (strTruthy args.date = false →
      (("start_date", jsOr args.start_date (getDefaultDateRange now).start_date) ∈
         buildQueryParams (AndroidKeywordRankHandler.queryParams now args) ∧
       ("end_date", jsOr args.end_date (getDefaultDateRange now).end_date) ∈
         buildQueryParams (AndroidKeywordRankHandler.queryParams now args) ∧
       (∀ kv ∈ buildQueryParams (AndroidKeywordRankHandler.queryParams now args),
         kv.1 ≠ "date") ∧
       ("start_date", jsOr args.start_date (getDefaultDateRange now).start_date) ∈
         buildQueryParams (AppleKeywordRankHandler.queryParams now args) ∧
       ("end_date", jsOr args.end_date (getDefaultDateRange now).end_date) ∈
         buildQueryParams (AppleKeywordRankHandler.queryParams now args) ∧
       (∀ kv ∈ buildQueryParams (AppleKeywordRankHandler.queryParams now args),
         kv.1 ≠ "date"))) := by
  obtain ⟨app, dta, ctry, lang, sd, ed, dte, kws, plt⟩ := args
  have happle : AppleKeywordRankHandler.queryParams = AndroidKeywordRankHandler.queryParams := rfl
  rw [happle]
  constructor
  · intro d hd hne
    simp at hd
    subst hd
    have htr : strTruthy (some d) = true := by simp [strTruthy, hne]
    have hmem : ("date", d) ∈ buildQueryParams (AndroidKeywordRankHandler.queryParams now
        ⟨app, dta, ctry, lang, sd, ed, some d, kws, plt⟩) :=
      mem_buildQueryParams_of (by simp [AndroidKeywordRankHandler.queryParams, htr]) hne
    have hkeys : ∀ kv ∈ buildQueryParams (AndroidKeywordRankHandler.queryParams now
        ⟨app, dta, ctry, lang, sd, ed, some d, kws, plt⟩),
        kv.1 ≠ "start_date" ∧ kv.1 ≠ "end_date" := by
      intro kv hkv
      have hk := buildQueryParams_key_mem hkv
      simp [AndroidKeywordRankHandler.queryParams, htr] at hk
      rcases hk with h | h | h | h | h <;> rw [h] <;> exact ⟨by decide, by decide⟩
    exact ⟨hmem, hkeys, hmem, hkeys⟩
  · intro hdate
    simp at hdate
    have hms : ("start_date", jsOr sd (getDefaultDateRange now).start_date) ∈
        buildQueryParams (AndroidKeywordRankHandler.queryParams now
          ⟨app, dta, ctry, lang, sd, ed, dte, kws, plt⟩) :=
      mem_buildQueryParams_of (by simp [AndroidKeywordRankHandler.queryParams, hdate])
        (jsOr_ne_empty _ _ (getDefaultDateRange_start_ne now))
    have hme : ("end_date", jsOr ed (getDefaultDateRange now).end_date) ∈
        buildQueryParams (AndroidKeywordRankHandler.queryParams now
          ⟨app, dta, ctry, lang, sd, ed, dte, kws, plt⟩) :=
      mem_buildQueryParams_of (by simp [AndroidKeywordRankHandler.queryParams, hdate])
        (jsOr_ne_empty _ _ (getDefaultDateRange_end_ne now))
    have hkeys : ∀ kv ∈ buildQueryParams (AndroidKeywordRankHandler.queryParams now
        ⟨app, dta, ctry, lang, sd, ed, dte, kws, plt⟩), kv.1 ≠ "date" := by
      intro kv hkv
      have hk := buildQueryParams_key_mem hkv
      simp [AndroidKeywordRankHandler.queryParams, hdate] at hk
      rcases hk with h | h | h | h | h | h <;> rw [h] <;> decide
    exact ⟨hms, hme, hkeys, hms, hme, hkeys⟩

/-- Witness for the amended claim C4: the truthy-date branch at a concrete
date alongside supplied range bounds, and the falsy-date branch with the
30-day defaults substituted. -/
theorem claim_C4_date_precedence_amended_witness :
    ("date", "2025-01-01") ∈ buildQueryParams (AndroidKeywordRankHandler.queryParams ⟨2025, 9, 26⟩
      { app := some "com.spotify.music",
        keywords := some (ArgVal.vStr "fitness"), date := some "2025-01-01",
        start_date := some "2025-01-01", end_date := some "2025-01-31" }) ∧
    ("start_date", "2025-08-27") ∈ buildQueryParams (AndroidKeywordRankHandler.queryParams ⟨2025, 9, 26⟩
      { app := some "com.spotify.music",
        keywords := some (ArgVal.vStr "fitness") }) := by
  constructor
  · exact ((claim_C4_date_precedence_amended ⟨2025, 9, 26⟩
      { app := some "com.spotify.music", keywords := some (ArgVal.vStr "fitness"),
        date := some "2025-01-01", start_date := some "2025-01-01",
        end_date := some "2025-01-31" }).1 "2025-01-01" rfl (by decide)).1
  · exact ((claim_C4_date_precedence_amended ⟨2025, 9, 26⟩
      { app := some "com.spotify.music",
        keywords := some (ArgVal.vStr "fitness") }).2 (by decide)).1

/-- Claim C10: for every handler that takes a date range, supplying
start_date or end_date as the empty string is treated the same as
omitting it: the query parameters are identical in the two cases, and
(when the keyword-rank single date is not in effect) the computed 30-day
default value is substituted into the NormalizedQuery. -/
theorem claim_C10_empty_dates (now : CivilDate) (args : Args) (name : String)
    (h : name ∈ dateRangeTools) :
    (toolQueryParams name now { args with start_date := some "" } =
       toolQueryParams name now { args with start_date := none }) ∧
    (toolQueryParams name now { args with end_date := some "" } =
       toolQueryParams name now { args with end_date := none }) ∧
    (strTruthy args.date = false →
      ((args.start_date = none ∨ args.start_date = some "") →
        ("start_date", (getDefaultDateRange now).start_date) ∈
          buildQueryParams (toolQueryParams name now args)) ∧
      ((args.end_date = none ∨ args.end_date = some "") →
        ("end_date", (getDefaultDateRange now).end_date) ∈
          buildQueryParams (toolQueryParams name now args))) := by
  simp [dateRangeTools] at h
  obtain ⟨app, dta, ctry, lang, sd, ed, dte, kws, plt⟩ := args
  rcases h with h | h | h | h | h | h | h | h <;> subst h <;>
    refine ⟨rfl, rfl, fun hdate => ⟨fun hsd => ?_, fun hed => ?_⟩⟩ <;>
    simp at hdate
  all_goals
    first
    | (rcases hsd with hv | hv <;> simp at hv <;> subst hv <;>
        exact mem_buildQueryParams_of
          (by simp [toolQueryParams, AppleMetadataHandler.queryParams,
            AppleRankHandler.queryParams, AndroidMetadataHandler.queryParams,
            AndroidRankHandler.queryParams, AppleReviewsHandler.queryParams,
            AndroidReviewsHandler.queryParams, AppleKeywordRankHandler.queryParams,
            AndroidKeywordRankHandler.queryParams, hdate, jsOr])
          (getDefaultDateRange_start_ne now))
    | (rcases hed with hv | hv <;> simp at hv <;> subst hv <;>
        exact mem_buildQueryParams_of
          (by simp [toolQueryParams, AppleMetadataHandler.queryParams,
            AppleRankHandler.queryParams, AndroidMetadataHandler.queryParams,
            AndroidRankHandler.queryParams, AppleReviewsHandler.queryParams,
            AndroidReviewsHandler.queryParams, AppleKeywordRankHandler.queryParams,
            AndroidKeywordRankHandler.queryParams, hdate, jsOr])
          (getDefaultDateRange_end_ne now))

/-- Witness for claim C10 at appvector_android_reviews with start_date
supplied empty and end_date omitted, at the fixed clock 2025-09-26. -/
theorem claim_C10_empty_dates_witness :
    ("start_date", "2025-08-27") ∈ buildQueryParams (toolQueryParams
      "appvector_android_reviews" ⟨2025, 9, 26⟩
      { app := some "com.facebook.katana", start_date := some "" }) ∧
    ("end_date", "2025-09-26") ∈ buildQueryParams (toolQueryParams
      "appvector_android_reviews" ⟨2025, 9, 26⟩
      { app := some "com.facebook.katana", start_date := some "" }) := by
  have h := (claim_C10_empty_dates ⟨2025, 9, 26⟩
    { app := some "com.facebook.katana", start_date := some "" }
    "appvector_android_reviews" (by decide)).2.2 (by decide)
  exact ⟨h.1 (Or.inr rfl), h.2 (Or.inl rfl)⟩

end AppVector
